import Mathlib

/-!
Verification of the `Location` accessor layer of `hdf5-rust`
(`src/hdf5-rs/src/location.rs`).

The accessor wraps five C entry points of the native HDF5 library
(`H5Iget_name`, `H5Fget_name`, `H5Iget_file_id`, `H5Oget_comment`,
`H5Oset_comment`).  The native library is an opaque external collaborator;
we model it as an explicit state (`NativeState`) recording, per integer
identifier, whether the identifier is open/valid, the object's display
name, the owning file's path and identifier, and the stored comment.
Each C entry point becomes a function on that state returning
`Except H5Error`, and the wrapper methods of `Location` are translated
from the Rust source as state-passing functions.  The `h5lock!` macro of
the source only provides mutual exclusion, so in this sequential
embedding it is the identity; `h5call!`/`h5try!` translate to the
`Except` plumbing written out explicitly.
-/

namespace Hdf5

/-- A typed error surfaced from the wrapper, carrying a description
(the embedding of the crate's error type as far as these claims need it). -/
structure H5Error where
  desc : String
deriving Repr, DecidableEq

/-- Model of the native library's observable state, per integer
identifier: which identifiers are currently open and valid, the display
name of the object (empty for an anonymous object), the path of the
owning file, the identifier of the owning file, and the stored comment
(`none` when no comment has ever been set). -/
structure NativeState where
  valid : Int → Bool
  objName : Int → String
  fileName : Int → String
  fileId : Int → Int
  comments : Int → Option String

/-- Modelled from the spec: the native query for the display name of an
identifier (`H5Iget_name` behind the two-call size-then-fill idiom of
`get_h5_str`, which is repository code not present under `src/`).  It
yields the display name for a valid identifier — the empty string for an
anonymous object — and a typed error for an invalid one. -/
def H5Iget_name (id : Int) (s : NativeState) : Except H5Error String :=
  if s.valid id then .ok (s.objName id) else .error ⟨"invalid identifier"⟩

/-- Modelled from the spec: the native query for the path of the file
owning an identifier (`H5Fget_name` behind `get_h5_str`). -/
def H5Fget_name (id : Int) (s : NativeState) : Except H5Error String :=
  if s.valid id then .ok (s.fileName id) else .error ⟨"invalid identifier"⟩

/-- Modelled from the spec: the native query obtaining a new owned
identifier for the file owning a given identifier (`H5Iget_file_id`). -/
def H5Iget_file_id (id : Int) (s : NativeState) : Except H5Error Int :=
  if s.valid id then .ok (s.fileId id) else .error ⟨"invalid identifier"⟩

/-- Modelled from the spec: the native query reading an object's comment
(`H5Oget_comment` behind `get_h5_str`); the native library reports an
empty string when no comment is stored. -/
def H5Oget_comment (id : Int) (s : NativeState) : Except H5Error String :=
  if s.valid id then .ok ((s.comments id).getD "") else .error ⟨"invalid identifier"⟩

/-- Modelled from the spec: the native call writing or clearing an
object's comment (`H5Oset_comment`): given a null-terminated byte string
it stores it; given a null pointer (`none` here) it clears the comment. -/
def H5Oset_comment (id : Int) (payload : Option String) (s : NativeState) :
    Except H5Error NativeState :=
  if s.valid id then
    .ok { s with comments := fun j => if j = id then payload else s.comments j }
  else .error ⟨"invalid identifier"⟩

/-- Modelled from the spec: `get_h5_str`, the reusable two-call
size-then-fill string-retrieval helper (repository code not under
`src/`).  At this level of abstraction it surfaces the underlying
query's string result or its typed error. -/
def get_h5_str (query : NativeState → Except H5Error String) (s : NativeState) :
    Except H5Error String :=
  query s

/-- Modelled from the spec: `to_cstring` (repository code not under
`src/`), converting text to a null-terminated byte string; the
conversion fails with an encoding error when the text contains an
embedded terminator (NUL) byte. -/
def to_cstring (text : String) : Except H5Error String :=
  if text.data.contains (Char.ofNat 0) then
    .error ⟨"string contains a null byte"⟩
  else .ok text

/-- A named location handle: the wrapper's non-owning typed view of one
live object identifier. -/
structure Location where
  id : Int

/-- An owned handle to a file object. -/
structure File where
  id : Int
deriving Repr, DecidableEq

/-- Modelled from the spec: `File::from_id` (repository code not under
`src/`), wrapping a native identifier into an owned `File` handle;
construction fails with a typed error when the identifier is invalid. -/
def File.from_id (id : Int) (s : NativeState) : Except H5Error File :=
  if s.valid id then .ok ⟨id⟩ else .error ⟨"invalid identifier"⟩

/-- `Location::name`: display name of the object within the file;
`get_h5_str(|m, s| H5Iget_name(id, m, s)).unwrap_or_else(|_| "")`. -/
def Location.name (loc : Location) (s : NativeState) : String :=
  match get_h5_str (H5Iget_name loc.id) s with
  | .ok str => str
  | .error _ => ""

/-- `Location::filename`: path of the file containing the object;
`get_h5_str(|m, s| H5Fget_name(id, m, s)).unwrap_or_else(|_| "")`. -/
def Location.filename (loc : Location) (s : NativeState) : String :=
  match get_h5_str (H5Fget_name loc.id) s with
  | .ok str => str
  | .error _ => ""

/-- `Location::file`: `File::from_id(h5try!(H5Iget_file_id(self.id())))`. -/
def Location.file (loc : Location) (s : NativeState) : Except H5Error File :=
  match H5Iget_file_id loc.id s with
  | .ok fid => File.from_id fid s
  | .error e => .error e

/-- `Location::comment`: the stored comment, if any;
`get_h5_str(..).ok()` then `and_then(|c| if c.is_empty() { None } else { Some(c) })`. -/
def Location.comment (loc : Location) (s : NativeState) : Option String :=
  let comment := (get_h5_str (H5Oget_comment loc.id) s).toOption
  comment.bind fun c => if c.isEmpty then none else some c

/-- `Location::set_comment`: `to_cstring(comment)?` then
`h5call!(H5Oset_comment(self.id(), comment.as_ptr())).and(Ok(()))`;
state passing makes the side effect on the native state explicit. -/
def Location.set_comment (loc : Location) (text : String) (s : NativeState) :
    Except H5Error NativeState :=
  match to_cstring text with
  | .ok c => H5Oset_comment loc.id (some c) s
  | .error e => .error e

/-- `Location::clear_comment`:
`h5call!(H5Oset_comment(self.id(), ptr::null_mut())).and(Ok(()))`. -/
def Location.clear_comment (loc : Location) (s : NativeState) :
    Except H5Error NativeState :=
  H5Oset_comment loc.id none s

/-- `Location::repr`: `format!("\"{}\"", self.name())`. -/
def Location.repr (loc : Location) (s : NativeState) : String :=
  "\"" ++ loc.name s ++ "\""

/-- A control character in the ASCII sense: code point below 32, or 127. -/
def isCtrlChar (c : Char) : Bool :=
  c.toNat < 32 || c.toNat == 127

/-- A concrete native state for evaluating the theorems: identifiers 1
(a group named "/" in file "test.h5" owned by identifier 2) and 2 (the
file itself) are open; no comments are set; every other identifier is
invalid. -/
def sampleState : NativeState where
  valid := fun i => i == 1 || i == 2
  objName := fun i => if i = 1 then "/" else ""
  fileName := fun i => if i = 1 || i == 2 then "test.h5" else ""
  fileId := fun _ => 2
  comments := fun _ => none

/-- `sampleState` after a successful `set_comment("")` on identifier 1. -/
def emptyCommentState : NativeState :=
  { sampleState with
    comments := fun j => if j = 1 then some "" else sampleState.comments j }

/-- `sampleState` after a successful `set_comment("foo")` on identifier 1. -/
def fooCommentState : NativeState :=
  { sampleState with
    comments := fun j => if j = 1 then some "foo" else sampleState.comments j }

/-- `sampleState` after a successful `clear_comment()` on identifier 1. -/
def clearedState : NativeState :=
  { sampleState with
    comments := fun j => if j = 1 then none else sampleState.comments j }

/-- A concrete native state whose open identifier 1 has a display name
containing a line feed (a control character). -/
def ctrlState : NativeState where
  valid := fun i => i == 1
  objName := fun i => if i = 1 then "a\nb" else ""
  fileName := fun _ => ""
  fileId := fun _ => 1
  comments := fun _ => none

/-- C1: for every handle, `name()` and `filename()` never return an
error (their return type is a plain `String`): whenever the underlying
library query fails — which covers the anonymous-object case surfacing
through the same path — each returns the empty string instead of
propagating the failure. -/
theorem name_filename_swallow_failure (loc : Location) (s : NativeState)
    (e e' : H5Error)
    (hn : get_h5_str (H5Iget_name loc.id) s = .error e)
    (hf : get_h5_str (H5Fget_name loc.id) s = .error e') :
    Location.name loc s = "" ∧ Location.filename loc s = "" := by
  unfold Location.name Location.filename
  rw [hn, hf]
  exact ⟨rfl, rfl⟩

/-- Witness for C1: identifier 5 is invalid in `sampleState`, so both
queries fail there, and both accessors return the empty string. -/
theorem name_filename_swallow_failure_witness :
    Location.name ⟨5⟩ sampleState = "" ∧ Location.filename ⟨5⟩ sampleState = "" :=
  name_filename_swallow_failure ⟨5⟩ sampleState
    ⟨"invalid identifier"⟩ ⟨"invalid identifier"⟩ rfl rfl

/-- Helper: on a valid handle, `comment()` is the stored comment
(defaulted to the empty string) filtered through the emptiness check. -/
theorem comment_eq_of_valid (loc : Location) (s : NativeState)
    (hv : s.valid loc.id = true) :
    Location.comment loc s =
      if ((s.comments loc.id).getD "").isEmpty then none
      else some ((s.comments loc.id).getD "") := by
  unfold Location.comment get_h5_str H5Oget_comment
  simp [hv, Except.toOption]

/-- Helper: on an invalid handle, `comment()` is `none`. -/
theorem comment_eq_none_of_invalid (loc : Location) (s : NativeState)
    (hv : s.valid loc.id = false) :
    Location.comment loc s = none := by
  unfold Location.comment get_h5_str H5Oget_comment
  simp [hv, Except.toOption]

/-- Helper: `comment()` never yields a present-but-empty string. -/
theorem comment_ne_some_empty (loc : Location) (s : NativeState) :
    Location.comment loc s ≠ some "" := by
  by_cases hv : s.valid loc.id
  · rw [comment_eq_of_valid loc s hv]
    by_cases he : ((s.comments loc.id).getD "").isEmpty
    · simp [he]
    · rw [if_neg he]
      intro h
      have h2 := Option.some.inj h
      rw [h2] at he
      exact he (by decide)
  · rw [comment_eq_none_of_invalid loc s (by simpa using hv)]
    simp

/-- C2: `comment()` returns `none` when the underlying query fails and
when no comment is set, an empty string from the underlying query is
normalized to `none`, and consequently `comment()` never returns a
present-but-empty comment. -/
theorem comment_normalized_to_absence (loc : Location) (s : NativeState) :
    (s.valid loc.id = false → Location.comment loc s = none) ∧
    (s.comments loc.id = none → Location.comment loc s = none) ∧
    (get_h5_str (H5Oget_comment loc.id) s = .ok "" → Location.comment loc s = none) ∧
    Location.comment loc s ≠ some "" := by
  refine ⟨comment_eq_none_of_invalid loc s, fun h => ?_, fun h => ?_, comment_ne_some_empty loc s⟩
  · by_cases hv : s.valid loc.id
    · rw [comment_eq_of_valid loc s hv, h]
      decide
    · exact comment_eq_none_of_invalid loc s (by simpa using hv)
  · by_cases hv : s.valid loc.id
    · have hg : (s.comments loc.id).getD "" = "" := by
        unfold get_h5_str H5Oget_comment at h
        rw [if_pos hv] at h
        exact Except.ok.inj h
      rw [comment_eq_of_valid loc s hv, hg]
      decide
    · exact comment_eq_none_of_invalid loc s (by simpa using hv)

/-- Witness for C2: evaluated on the invalid identifier 5 and on the
open, comment-free identifier 1 of `sampleState`. -/
theorem comment_normalized_to_absence_witness :
    Location.comment ⟨5⟩ sampleState = none ∧
    Location.comment ⟨1⟩ sampleState = none ∧
    Location.comment ⟨1⟩ sampleState ≠ some "" :=
  ⟨(comment_normalized_to_absence ⟨5⟩ sampleState).1 rfl,
   (comment_normalized_to_absence ⟨1⟩ sampleState).2.1 rfl,
   (comment_normalized_to_absence ⟨1⟩ sampleState).2.2.2⟩

/-- C10: the three swallowing accessors are total at the public
interface: they return plain values (`String` and `Option String`, never
an error value), and even on an invalid or closed handle — where every
underlying query fails — they return the default values instead of
surfacing an error. -/
theorem accessors_total_on_invalid_handle (loc : Location) (s : NativeState)
    (hv : s.valid loc.id = false) :
    Location.name loc s = "" ∧ Location.filename loc s = "" ∧
    Location.comment loc s = none := by
  refine ⟨?_, ?_, comment_eq_none_of_invalid loc s hv⟩
  · unfold Location.name get_h5_str H5Iget_name
    simp [hv]
  · unfold Location.filename get_h5_str H5Fget_name
    simp [hv]

/-- Witness for C10: identifier 5 is invalid (closed) in `sampleState`. -/
theorem accessors_total_on_invalid_handle_witness :
    Location.name ⟨5⟩ sampleState = "" ∧ Location.filename ⟨5⟩ sampleState = "" ∧
    Location.comment ⟨5⟩ sampleState = none :=
  accessors_total_on_invalid_handle ⟨5⟩ sampleState rfl

/-- Helper: inversion of a successful `set_comment`: the text had no
embedded NUL, the handle was valid, and the resulting state stores the
text as the comment, all else unchanged. -/
theorem set_comment_ok_inv (loc : Location) (x : String) (s s' : NativeState)
    (hok : Location.set_comment loc x s = .ok s') :
    x.data.contains (Char.ofNat 0) = false ∧ s.valid loc.id = true ∧
    s' = { s with comments := fun j => if j = loc.id then some x else s.comments j } := by
  unfold Location.set_comment to_cstring H5Oset_comment at hok
  by_cases hnul : x.data.contains (Char.ofNat 0)
  · rw [if_pos hnul] at hok
    exact absurd hok (by simp)
  · rw [if_neg hnul] at hok
    have hok2 : (if s.valid loc.id = true then
          Except.ok { s with comments := fun j => if j = loc.id then some x else s.comments j }
        else (Except.error ⟨"invalid identifier"⟩ : Except H5Error NativeState)) =
        Except.ok s' := hok
    by_cases hv : s.valid loc.id
    · rw [if_pos hv] at hok2
      exact ⟨Bool.not_eq_true _ ▸ hnul, hv, (Except.ok.inj hok2).symm⟩
    · rw [if_neg hv] at hok2
      exact absurd hok2 (by simp)

/-- Helper: the `comment()` read back after the native state stored
`x` as the comment of a valid handle. -/
theorem comment_after_set (loc : Location) (x : String) (s : NativeState)
    (hv : s.valid loc.id = true) :
    Location.comment loc
        { s with comments := fun j => if j = loc.id then some x else s.comments j } =
      if x.isEmpty then none else some x := by
  rw [comment_eq_of_valid loc
      { s with comments := fun j => if j = loc.id then some x else s.comments j } hv]
  simp

/-- Counterexample to C3 as stated: the empty string contains no
embedded terminator byte, `set_comment("")` succeeds on the open
identifier 1 of `sampleState`, yet the subsequent `comment()` yields
`none`, not the empty string that was set. -/
theorem set_comment_roundtrip_counterexample :
    ¬ ∀ (x : String) (loc : Location) (s s' : NativeState),
        x.data.contains (Char.ofNat 0) = false →
        s.valid loc.id = true →
        Location.set_comment loc x s = .ok s' →
        Location.comment loc s' = some x := by
  intro h
  have hc := h "" ⟨1⟩ sampleState emptyCommentState (by decide) (by decide)
      (by unfold Location.set_comment to_cstring H5Oset_comment emptyCommentState sampleState; rfl)
  have hn : Location.comment ⟨1⟩ emptyCommentState = none := by decide
  rw [hc] at hn
  exact Option.noConfusion hn

/-- C3 amended: the set/get round-trip holds for every nonempty string
with no embedded terminator byte: if `set_comment(X)` succeeds then a
subsequent `comment()` yields `X`. -/
theorem set_comment_roundtrip_nonempty (x : String) (loc : Location) (s s' : NativeState)
    (hne : x ≠ "") (hok : Location.set_comment loc x s = .ok s') :
    Location.comment loc s' = some x := by
  obtain ⟨hnul, hv, hs⟩ := set_comment_ok_inv loc x s s' hok
  subst hs
  rw [comment_after_set loc x s hv, if_neg]
  simp only [String.isEmpty_iff]
  exact hne

/-- Witness for C3 amended: setting "foo" on identifier 1 of
`sampleState` succeeds, and reading the comment back yields "foo". -/
theorem set_comment_roundtrip_nonempty_witness :
    Location.comment ⟨1⟩ fooCommentState = some "foo" :=
  set_comment_roundtrip_nonempty "foo" ⟨1⟩ sampleState fooCommentState
    (by decide)
    (by unfold Location.set_comment to_cstring H5Oset_comment fooCommentState sampleState; rfl)

/-- C4: `set_comment` on text with an embedded terminator (NUL) byte
fails with the encoding error of the string conversion, uniformly in the
native state — the underlying library is never called and no truncated
text is ever stored: in particular no successful result exists. -/
theorem set_comment_embedded_nul_fails (x : String) (loc : Location) (s : NativeState)
    (hnul : x.data.contains (Char.ofNat 0) = true) :
    Location.set_comment loc x s = .error ⟨"string contains a null byte"⟩ ∧
    ∀ s', Location.set_comment loc x s ≠ .ok s' := by
  unfold Location.set_comment to_cstring
  rw [if_pos hnul]
  exact ⟨rfl, fun s' h => Except.noConfusion h⟩

/-- Witness for C4: the three-character text "a", NUL, "b" contains an
embedded terminator, and setting it as a comment fails with the
encoding error. -/
theorem set_comment_embedded_nul_fails_witness :
    Location.set_comment ⟨1⟩ "a\x00b" sampleState = .error ⟨"string contains a null byte"⟩ ∧
    ∀ s', Location.set_comment ⟨1⟩ "a\x00b" sampleState ≠ .ok s' :=
  set_comment_embedded_nul_fails "a\x00b" ⟨1⟩ sampleState (by decide)

/-- C9: after a successful `set_comment("")`, a subsequent `comment()`
returns `none` rather than a present empty string — the underlying
query's empty string is normalized to absence, so the set/get
round-trip does not hold for the empty string. -/
theorem set_empty_comment_reads_absent (loc : Location) (s s' : NativeState)
    (hok : Location.set_comment loc "" s = .ok s') :
    Location.comment loc s' = none ∧ Location.comment loc s' ≠ some "" := by
  obtain ⟨hnul, hv, hs⟩ := set_comment_ok_inv loc "" s s' hok
  subst hs
  rw [comment_after_set loc "" s hv, if_pos (by decide)]
  exact ⟨rfl, by simp⟩

/-- Witness for C9: setting the empty comment on identifier 1 of
`sampleState` succeeds, and reading it back yields `none`. -/
theorem set_empty_comment_reads_absent_witness :
    Location.comment ⟨1⟩ emptyCommentState = none ∧
    Location.comment ⟨1⟩ emptyCommentState ≠ some "" :=
  set_empty_comment_reads_absent ⟨1⟩ sampleState emptyCommentState
    (by unfold Location.set_comment to_cstring H5Oset_comment emptyCommentState sampleState; rfl)

/-- C5: `file()` propagates any failure of the underlying owning-file
query as a typed error rather than substituting a default; on success
(with the returned identifier valid) it returns a distinct owned `File`
handle carrying the owning file's identifier. -/
theorem file_propagates_failure (loc : Location) (s : NativeState) :
    (∀ e, H5Iget_file_id loc.id s = .error e → Location.file loc s = .error e) ∧
    (∀ fid, H5Iget_file_id loc.id s = .ok fid → s.valid fid = true →
      Location.file loc s = .ok ⟨fid⟩) := by
  constructor
  · intro e he
    unfold Location.file
    rw [he]
  · intro fid hf hvf
    unfold Location.file
    rw [hf]
    show File.from_id fid s = .ok ⟨fid⟩
    unfold File.from_id
    rw [if_pos hvf]

/-- Witness for C5: in `sampleState` the invalid identifier 5 makes
`file()` fail with the propagated typed error, and the open identifier
1 yields an owned handle to its owning file, identifier 2. -/
theorem file_propagates_failure_witness :
    Location.file ⟨5⟩ sampleState = .error ⟨"invalid identifier"⟩ ∧
    Location.file ⟨1⟩ sampleState = .ok ⟨2⟩ :=
  ⟨(file_propagates_failure ⟨5⟩ sampleState).1 ⟨"invalid identifier"⟩ rfl,
   (file_propagates_failure ⟨1⟩ sampleState).2 2 rfl rfl⟩

/-- C6: `clear_comment()` makes exactly the underlying comment-setting
call with a null payload, surfaces an error precisely when `set_comment`
does (the same typed error, for any text that passes the string
conversion), and succeeding once implies a second consecutive
`clear_comment()` also succeeds. -/
theorem clear_comment_is_null_set (loc : Location) (s : NativeState) :
    Location.clear_comment loc s = H5Oset_comment loc.id none s ∧
    (∀ x e, x.data.contains (Char.ofNat 0) = false →
      (Location.set_comment loc x s = .error e ↔
        Location.clear_comment loc s = .error e)) ∧
    (∀ s', Location.clear_comment loc s = .ok s' →
      ∃ s'', Location.clear_comment loc s' = .ok s'') := by
  refine ⟨rfl, fun x e hnul => ?_, fun s' hok => ?_⟩
  · unfold Location.set_comment to_cstring Location.clear_comment H5Oset_comment
    rw [if_neg (fun h => by rw [hnul] at h; exact Bool.noConfusion h)]
    by_cases hv : s.valid loc.id
    · simp [hv]
    · simp [hv]
  · unfold Location.clear_comment H5Oset_comment at hok ⊢
    by_cases hv : s.valid loc.id
    · rw [if_pos hv] at hok
      have hs := (Except.ok.inj hok).symm
      subst hs
      rw [if_pos hv]
      exact ⟨_, rfl⟩
    · rw [if_neg hv] at hok
      exact absurd hok (by simp)

/-- Witness for C6: on identifier 1 of `sampleState`, clearing equals
the null-payload native call, neither `set_comment("foo")` nor
`clear_comment()` errors there (the equivalence holds trivially), and a
clear that succeeded can be repeated. -/
theorem clear_comment_is_null_set_witness :
    Location.clear_comment ⟨1⟩ sampleState = H5Oset_comment 1 none sampleState ∧
    (Location.set_comment ⟨1⟩ "foo" sampleState = .error ⟨"invalid identifier"⟩ ↔
      Location.clear_comment ⟨1⟩ sampleState = .error ⟨"invalid identifier"⟩) ∧
    ∃ s'', Location.clear_comment ⟨1⟩ clearedState = .ok s'' :=
  ⟨(clear_comment_is_null_set ⟨1⟩ sampleState).1,
   (clear_comment_is_null_set ⟨1⟩ sampleState).2.1 "foo" ⟨"invalid identifier"⟩ rfl,
   (clear_comment_is_null_set ⟨1⟩ sampleState).2.2 clearedState rfl⟩

/-- Helper: on an invalid handle, `name()` is the empty string. -/
theorem name_eq_of_invalid (loc : Location) (s : NativeState)
    (hv : s.valid loc.id = false) : Location.name loc s = "" := by
  unfold Location.name get_h5_str H5Iget_name
  simp [hv]

/-- Helper: on a valid handle, `name()` is the native display name. -/
theorem name_eq_of_valid (loc : Location) (s : NativeState)
    (hv : s.valid loc.id = true) : Location.name loc s = s.objName loc.id := by
  unfold Location.name get_h5_str H5Iget_name
  simp [hv]

/-- Helper: the character data of an appended string. -/
theorem string_data_append (s t : String) : (s ++ t).data = s.data ++ t.data := by
  cases s
  cases t
  rfl

/-- Counterexample to C7 as stated: on the valid identifier 1 of
`ctrlState`, whose display name contains a line feed, `repr()` returns
a string containing that control character unescaped (the code performs
no escaping), so it is not the case that `repr()` never returns a
string containing unescaped control characters. -/
theorem repr_unescaped_control_counterexample :
    ¬ ∀ (loc : Location) (s : NativeState), s.valid loc.id = true →
        ∀ c ∈ (Location.repr loc s).data, isCtrlChar c = false := by
  intro h
  have hc := h ⟨1⟩ ctrlState rfl (Char.ofNat 10) (by decide)
  exact absurd hc (by decide)

/-- C7 amended: `repr()` returns exactly `name()` enclosed in double
quotes and never fails (it is total, returning a plain `String`); for an
anonymous or inaccessible object it returns the two-character string of
two double quotes; and — since no escaping is performed — any control
character it contains comes straight from `name()`. -/
theorem repr_quotes_name (loc : Location) (s : NativeState) :
    Location.repr loc s = "\"" ++ Location.name loc s ++ "\"" ∧
    (s.valid loc.id = false → Location.repr loc s = "\"\"") ∧
    (s.valid loc.id = true → s.objName loc.id = "" → Location.repr loc s = "\"\"") ∧
    (∀ c ∈ (Location.repr loc s).data, isCtrlChar c = true →
      c ∈ (Location.name loc s).data) := by
  refine ⟨rfl, fun hv => ?_, fun hv hanon => ?_, fun c hc hctrl => ?_⟩
  · unfold Location.repr
    rw [name_eq_of_invalid loc s hv]
    decide
  · unfold Location.repr
    rw [name_eq_of_valid loc s hv, hanon]
    decide
  · unfold Location.repr at hc
    rw [string_data_append, string_data_append] at hc
    have hq : "\"".data = ['"'] := rfl
    rw [hq] at hc
    rcases List.mem_append.mp hc with h1 | h2
    · rcases List.mem_append.mp h1 with h3 | h4
      · have h5 : c = '"' := by simpa using h3
        rw [h5] at hctrl
        exact absurd hctrl (by decide)
      · exact h4
    · have h5 : c = '"' := by simpa using h2
      rw [h5] at hctrl
      exact absurd hctrl (by decide)

/-- Witness for C7 amended: identifier 1 of `sampleState` is a named
object, identifier 5 is invalid, identifier 2 is anonymous, and the
line feed in `ctrlState`'s repr output indeed comes from the name. -/
theorem repr_quotes_name_witness :
    Location.repr ⟨1⟩ sampleState = "\"" ++ Location.name ⟨1⟩ sampleState ++ "\"" ∧
    Location.repr ⟨5⟩ sampleState = "\"\"" ∧
    Location.repr ⟨2⟩ sampleState = "\"\"" ∧
    Char.ofNat 10 ∈ (Location.name ⟨1⟩ ctrlState).data :=
  ⟨(repr_quotes_name ⟨1⟩ sampleState).1,
   (repr_quotes_name ⟨5⟩ sampleState).2.1 rfl,
   (repr_quotes_name ⟨2⟩ sampleState).2.2.1 rfl rfl,
   (repr_quotes_name ⟨1⟩ ctrlState).2.2.2 (Char.ofNat 10) (by decide) (by decide)⟩

end Hdf5
